import Mathlib

/-!
Verification of the `resource_tools` embedded-resource accessor library
(`include/resource_tools/embedded_resource.h`).

Modelling conventions:
* A pointer (`const uint8_t*`) is a `Nat` address; the null pointer is
  address `0`.  The code never dereferences its pointer arguments — it only
  compares and subtracts them — so addresses capture all observable
  behaviour.
* `ResourceError` is `enum class ResourceError : uint32_t`; we model a value
  of that type by its underlying numeral, so that the defensive
  out-of-range branch of `to_string` is representable.
* `size_t` is as wide as the address space, so `end - start` on an ordered
  pair of addresses is exact natural subtraction.
* `getResourceSize` casts a pointer difference to `uint32_t`, i.e. reduces
  the signed difference modulo `2^32`.
-/

namespace ResourceTools

/-- A machine address; `0` is the null pointer. -/
abbrev Ptr := Nat

/-- Underlying representation of `enum class ResourceError : uint32_t`. -/
abbrev ResourceError := Nat

def ResourceError.Success : ResourceError := 0

def ResourceError.NullPointer : ResourceError := 1

def ResourceError.InvalidSize : ResourceError := 2

def ResourceError.IntegerOverflow : ResourceError := 3

def ResourceError.NotFound : ResourceError := 4

/-- `to_string(ResourceError)`: the switch over the five enumerators with the
defensive fall-through `return "Unknown error";`. -/
def to_string (err : ResourceError) : String :=
  if err = ResourceError.Success then "Success"
  else if err = ResourceError.NullPointer then "Null pointer encountered"
  else if err = ResourceError.InvalidSize then "Invalid resource size (end < start)"
  else if err = ResourceError.IntegerOverflow then "Resource size exceeds uint32_t limit"
  else if err = ResourceError.NotFound then "Resource not found"
  else "Unknown error"

/-- `struct ResourceData { const uint8_t* data; size_t size; }`. -/
structure ResourceData where
  data : Ptr
  size : Nat
deriving DecidableEq

/-- `struct ResourceResult { const uint8_t* data; size_t size; ResourceError error; }`. -/
structure ResourceResult where
  data : Ptr
  size : Nat
  error : ResourceError
deriving DecidableEq

/-- `getResourceSafe(start, end)`: null checks, order check, then
`{start, end - start, Success}`. -/
def getResourceSafe (start end_ : Ptr) : ResourceResult :=
  if start = 0 then ⟨0, 0, ResourceError.NullPointer⟩
  else if end_ = 0 then ⟨0, 0, ResourceError.NullPointer⟩
  else if end_ < start then ⟨0, 0, ResourceError.InvalidSize⟩
  else ⟨start, end_ - start, ResourceError.Success⟩

/-- `getResourceSizeSafe(start, end)`: delegates to `getResourceSafe`. -/
def getResourceSizeSafe (start end_ : Ptr) : ResourceResult :=
  getResourceSafe start end_

/-- `getResourceExpected(start, end)`: the C++23 `std::expected` variant.  The
source re-states the checks (`!start || !end`, then `end < start`) rather
than calling `getResourceSafe`. -/
def getResourceExpected (start end_ : Ptr) : Except ResourceError ResourceData :=
  if start = 0 ∨ end_ = 0 then Except.error ResourceError.NullPointer
  else if end_ < start then Except.error ResourceError.InvalidSize
  else Except.ok ⟨start, end_ - start⟩

/-- Modelled from the spec (§4.3 agreement): the success/failure union a
`ResourceResult` denotes — `ok` with its payload when the error kind is
`Success`, otherwise `error` with the kind.  Used only to state that the two
accessor APIs agree. -/
def toExpectedSpec (r : ResourceResult) : Except ResourceError ResourceData :=
  if r.error = ResourceError.Success then Except.ok ⟨r.data, r.size⟩
  else Except.error r.error

/-- `getResourceSize(start, end)` (legacy): `static_cast<uint32_t>(end - start)`
— the signed pointer difference reduced modulo `2^32`, with no validation. -/
def getResourceSize (start end_ : Ptr) : Nat :=
  (((end_ : Int) - (start : Int)) % 4294967296).toNat

/-- `getResourceData(start)` (legacy): identity on the start address. -/
def getResourceData (start : Ptr) : Ptr :=
  start

/-- A `DiagnosticCallback` function pointer, identified by an abstract token;
the slot `detail::g_diagnostic_callback` is `none` when it holds `nullptr`. -/
abbrev DiagnosticCallback := Nat

/-- `setDiagnosticCallback(callback)`: assigns the process-wide slot
(state-passing rendition of `detail::g_diagnostic_callback = callback`). -/
def setDiagnosticCallback (callback : Option DiagnosticCallback)
    (_slot : Option DiagnosticCallback) : Option DiagnosticCallback :=
  callback

/-- `detail::diagnostic_log(message)`: calls the installed callback with the
message, if any.  The result lists the invocations performed. -/
def diagnostic_log (slot : Option DiagnosticCallback) (message : String) :
    List (DiagnosticCallback × String) :=
  match slot with
  | some cb => [(cb, message)]
  | none => []

end ResourceTools

namespace ResourceTools

/-- C1: for every pair of non-null addresses `start`, `end` with
`end ≥ start`, `getResourceSafe` returns a `Success` result whose size equals
`end - start` and whose data pointer equals `start`. -/
theorem getResourceSafe_valid_range (start end_ : Ptr)
    (hs : start ≠ 0) (he : end_ ≠ 0) (hle : start ≤ end_) :
    (getResourceSafe start end_).error = ResourceError.Success ∧
    (getResourceSafe start end_).size = end_ - start ∧
    (getResourceSafe start end_).data = start := by
  simp [getResourceSafe, hs, he, Nat.not_lt.mpr hle]

/-- C1 witness: addresses `1` and `6` are non-null and ordered, and the
accessor succeeds with size `5` and data `1`. -/
theorem getResourceSafe_valid_range_witness :
    (getResourceSafe 1 6).error = ResourceError.Success ∧
    (getResourceSafe 1 6).size = 6 - 1 ∧
    (getResourceSafe 1 6).data = 1 :=
  getResourceSafe_valid_range 1 6 (by decide) (by decide) (by decide)

/-- C2: for every input pair, `getResourceExpected` and `getResourceSafe`
agree on outcome, on the error kind on failure, and on the data pointer and
size on success: the expected-based result is exactly the union the
`ResourceResult` denotes. -/
theorem getResourceExpected_agrees_getResourceSafe (start end_ : Ptr) :
    getResourceExpected start end_ = toExpectedSpec (getResourceSafe start end_) := by
  by_cases hs : start = 0 <;> by_cases he : end_ = 0 <;>
    by_cases hlt : end_ < start <;>
      simp [getResourceExpected, getResourceSafe, toExpectedSpec, hs, he, hlt,
        ResourceError.Success, ResourceError.NullPointer, ResourceError.InvalidSize]

/-- C3: every result of `getResourceSafe` satisfies the invariant: the error
is `Success` iff the data pointer is non-null, and in every non-`Success`
case the data pointer is null and the size is zero. -/
theorem getResourceSafe_invariant (start end_ : Ptr) :
    ((getResourceSafe start end_).error = ResourceError.Success ↔
      (getResourceSafe start end_).data ≠ 0) ∧
    ((getResourceSafe start end_).error ≠ ResourceError.Success →
      (getResourceSafe start end_).data = 0 ∧ (getResourceSafe start end_).size = 0) := by
  unfold getResourceSafe
  split
  · simp [ResourceError.Success, ResourceError.NullPointer]
  · split
    · simp [ResourceError.Success, ResourceError.NullPointer]
    · split
      · simp [ResourceError.Success, ResourceError.InvalidSize]
      · rename_i h₁ h₂ h₃
        simp [ResourceError.Success, h₁]

/-- C3 witness: the invariant instantiated at the concrete pair `(0, 9)`. -/
theorem getResourceSafe_invariant_witness :
    ((getResourceSafe 0 9).error = ResourceError.Success ↔
      (getResourceSafe 0 9).data ≠ 0) ∧
    ((getResourceSafe 0 9).error ≠ ResourceError.Success →
      (getResourceSafe 0 9).data = 0 ∧ (getResourceSafe 0 9).size = 0) :=
  getResourceSafe_invariant 0 9

/-- C4 counterexample: at `start = end = null` (both addresses `0`, hence
equal), `getResourceSafe` does not succeed — it returns `NullPointer` — so
the claim does not hold for every input with `start == end`. -/
theorem getResourceSafe_empty_cex :
    ¬ ((getResourceSafe 0 0).error = ResourceError.Success ∧
       (getResourceSafe 0 0).size = 0 ∧ (getResourceSafe 0 0).data ≠ 0) := by
  decide

/-- C4 (amended): for all inputs where `start == end` and the address is
non-null, `getResourceSafe` succeeds with length `0` and a non-null address
(namely `start` itself). -/
theorem getResourceSafe_empty_range (start : Ptr) (hs : start ≠ 0) :
    (getResourceSafe start start).error = ResourceError.Success ∧
    (getResourceSafe start start).size = 0 ∧
    (getResourceSafe start start).data = start ∧
    (getResourceSafe start start).data ≠ 0 := by
  simp [getResourceSafe, hs]

/-- C4 witness: the empty range at non-null address `7`. -/
theorem getResourceSafe_empty_range_witness :
    (getResourceSafe 7 7).error = ResourceError.Success ∧
    (getResourceSafe 7 7).size = 0 ∧
    (getResourceSafe 7 7).data = 7 ∧
    (getResourceSafe 7 7).data ≠ 0 :=
  getResourceSafe_empty_range 7 (by decide)

/-- C5: whenever at least one of the two addresses is null, `getResourceSafe`
fails with `NullPointer`, null data pointer and size `0`, regardless of which
argument was null. -/
theorem getResourceSafe_null_inputs (start end_ : Ptr)
    (h : start = 0 ∨ end_ = 0) :
    getResourceSafe start end_ = ⟨0, 0, ResourceError.NullPointer⟩ := by
  rcases h with h | h <;> subst h <;> simp [getResourceSafe]

/-- C5 witness: a null second argument with a non-null first argument gives
the `NullPointer` failure result. -/
theorem getResourceSafe_null_inputs_witness :
    getResourceSafe 5 0 = ⟨0, 0, ResourceError.NullPointer⟩ :=
  getResourceSafe_null_inputs 5 0 (by simp)

/-- C6: for non-null addresses with `end` numerically less than `start`,
`getResourceSafe` fails with `InvalidSize`, null data pointer and size `0`. -/
theorem getResourceSafe_inverted (start end_ : Ptr)
    (hs : start ≠ 0) (he : end_ ≠ 0) (hlt : end_ < start) :
    getResourceSafe start end_ = ⟨0, 0, ResourceError.InvalidSize⟩ := by
  simp [getResourceSafe, hs, he, hlt]

/-- C6 witness: the inverted non-null pair `(6, 5)`. -/
theorem getResourceSafe_inverted_witness :
    getResourceSafe 6 5 = ⟨0, 0, ResourceError.InvalidSize⟩ :=
  getResourceSafe_inverted 6 5 (by decide) (by decide) (by decide)

/-- C7: `to_string` returns a distinct, non-empty string for each of the five
error kinds, and maps every value outside the five kinds to the generic
"Unknown error" string. -/
theorem to_string_total_distinct :
    (to_string ResourceError.Success ≠ "" ∧
     to_string ResourceError.NullPointer ≠ "" ∧
     to_string ResourceError.InvalidSize ≠ "" ∧
     to_string ResourceError.IntegerOverflow ≠ "" ∧
     to_string ResourceError.NotFound ≠ "") ∧
    [to_string ResourceError.Success, to_string ResourceError.NullPointer,
     to_string ResourceError.InvalidSize, to_string ResourceError.IntegerOverflow,
     to_string ResourceError.NotFound].Pairwise (· ≠ ·) ∧
    ∀ err : Nat, 5 ≤ err → to_string err = "Unknown error" := by
  refine ⟨by decide, by decide, ?_⟩
  intro err h5
  have h0 : err ≠ 0 := by omega
  have h1 : err ≠ 1 := by omega
  have h2 : err ≠ 2 := by omega
  have h3 : err ≠ 3 := by omega
  have h4 : err ≠ 4 := by omega
  simp [to_string, ResourceError.Success, ResourceError.NullPointer,
    ResourceError.InvalidSize, ResourceError.IntegerOverflow,
    ResourceError.NotFound, h0, h1, h2, h3, h4]

/-- C7 witness: the out-of-range value `5` maps to the generic string. -/
theorem to_string_total_distinct_witness :
    to_string 5 = "Unknown error" :=
  to_string_total_distinct.2.2 5 (by decide)

/-- C8: for every pair of addresses — including null and inverted ones — the
legacy `getResourceSize` returns a value below `2^32` that is congruent to
`end - start` modulo `2^32`: the pointer difference truncated to 32 bits,
with no validation. -/
theorem getResourceSize_truncates (start end_ : Ptr) :
    getResourceSize start end_ < 2 ^ 32 ∧
    ((getResourceSize start end_ : Int) - ((end_ : Int) - (start : Int))) % 2 ^ 32 = 0 := by
  unfold getResourceSize
  have hmod : ((2 : Int) ^ 32) = 4294967296 := by norm_num
  rw [hmod]
  have hnn : 0 ≤ ((end_ : Int) - (start : Int)) % 4294967296 :=
    Int.emod_nonneg _ (by norm_num)
  have hlt : ((end_ : Int) - (start : Int)) % 4294967296 < 4294967296 :=
    Int.emod_lt_of_pos _ (by norm_num)
  constructor
  · have : ((2 : Nat) ^ 32 : Nat) = 4294967296 := by norm_num
    rw [this]
    omega
  · rw [Int.toNat_of_nonneg hnn]
    omega

/-- C9: the diagnostic slot behaves as a process-wide callback cell: setting
installs exactly the given callback, clearing is idempotent, and
`diagnostic_log` invokes the installed callback with the message exactly once
when one is installed and does nothing otherwise. -/
theorem diagnostic_callback_spec (slot : Option DiagnosticCallback)
    (cb : DiagnosticCallback) (msg : String) :
    setDiagnosticCallback (some cb) slot = some cb ∧
    setDiagnosticCallback none slot = none ∧
    setDiagnosticCallback none (setDiagnosticCallback none slot) =
      setDiagnosticCallback none slot ∧
    diagnostic_log (setDiagnosticCallback (some cb) slot) msg = [(cb, msg)] ∧
    diagnostic_log (setDiagnosticCallback none slot) msg = [] ∧
    (∀ c, slot = some c → diagnostic_log slot msg = [(c, msg)]) ∧
    (slot = none → diagnostic_log slot msg = []) := by
  refine ⟨rfl, rfl, rfl, rfl, rfl, ?_, ?_⟩
  · intro c hc
    subst hc
    rfl
  · intro hc
    subst hc
    rfl

/-- C9 witness: the callback cell behaviour at the concrete slot `some 3`,
callback `4` and message "m". -/
theorem diagnostic_callback_spec_witness :
    setDiagnosticCallback (some 4) (some 3) = some 4 ∧
    setDiagnosticCallback none (some 3) = none ∧
    setDiagnosticCallback none (setDiagnosticCallback none (some 3)) =
      setDiagnosticCallback none (some 3) ∧
    diagnostic_log (setDiagnosticCallback (some 4) (some 3)) "m" = [(4, "m")] ∧
    diagnostic_log (setDiagnosticCallback none (some 3)) "m" = [] ∧
    (∀ c, (some 3 : Option DiagnosticCallback) = some c →
      diagnostic_log (some 3) "m" = [(c, "m")]) ∧
    ((some 3 : Option DiagnosticCallback) = none → diagnostic_log (some 3) "m" = []) :=
  diagnostic_callback_spec (some 3) 4 "m"

/-- C10: `getResourceSizeSafe` returns a result identical to
`getResourceSafe` in every field, for every input pair — it is an exact alias
of the full validating accessor. -/
theorem getResourceSizeSafe_alias (start end_ : Ptr) :
    getResourceSizeSafe start end_ = getResourceSafe start end_ :=
  rfl

end ResourceTools
